import Mathlib

/-!
# Verification of the Christmas Wonderland transformation and validation layer

This development shallowly embeds the parts of the repository that the
specification's claims are about:

* `transformers/index.js` — the primitive string / number / boolean / date
  transformers, the pagination normalizer, the per-resource input shapers and
  output shapers;
* `server.js` — the authentication gate (`authenticateToken`) and the route
  handlers for `POST /api/wishes`, `PATCH /api/todos/:id`, and the pagination
  computation of the `GET /api/wishes` / `GET /api/gallery` list handlers.

JavaScript values are modelled by the inductive type `JVal`.  JavaScript
numbers are modelled exactly by `JNum`: a rational, `NaN`, or one of the two
infinities.  Using rationals instead of binary64 floating point is the one
deliberate abstraction: none of the claims depends on rounding, only on
NaN/infinity propagation and order, which `JNum` models faithfully.
Missing object properties read as `JVal.undefined`, exactly as property access on
a JavaScript object yields `undefined` for an absent key.
-/

/-- JavaScript numbers: `NaN`, `Infinity`, `-Infinity`, or a finite value
(modelled as an exact rational; the claims never depend on float rounding). -/
inductive JNum where
  | nan : JNum
  | inf : JNum
  | ninf : JNum
  | fin : ℚ → JNum
deriving DecidableEq, Repr

/-- JavaScript values as the handlers and transformers see them.  `date t`
models a `Date` object whose `getTime()` is `t` (`none` = Invalid Date);
`obj` models a plain object as an association list of properties. -/
inductive JVal where
  | undefined : JVal
  | null : JVal
  | bool : Bool → JVal
  | num : JNum → JVal
  | str : String → JVal
  | date : Option Int → JVal
  | obj : List (String × JVal) → JVal

/-- Property lookup in an association-list object (keys are unique in every
object the code builds, so first-match is exact). -/
def lookupF : List (String × JVal) → String → JVal
  | [], _ => .undefined
  | (k', v) :: t, k => if k' = k then v else lookupF t k

/-- `o[k]` — JavaScript property access: `undefined` on a non-object or an
absent key (the code only reads properties of objects or after truthiness
guards, so the non-object catch-all is never load-bearing). -/
def getField : JVal → String → JVal
  | .obj fs, k => lookupF fs k
  | _, _ => .undefined

/-- Whether an object value carries the given key at all (distinguishes an
absent key from a key mapped to `undefined`/`null`). -/
def hasKey : JVal → String → Bool
  | .obj fs, k => fs.any (fun p => p.1 = k)
  | _, _ => false

/-- JavaScript truthiness. -/
def truthy : JVal → Bool
  | .undefined => false
  | .null => false
  | .bool b => b
  | .num .nan => false
  | .num .inf => true
  | .num .ninf => true
  | .num (.fin q) => if q = 0 then false else true
  | .str s => if s = "" then false else true
  | .date _ => true
  | .obj _ => true

/-- `v === s` for a string literal `s` (strict equality against a string). -/
def eqStr (v : JVal) (s : String) : Bool :=
  match v with
  | .str t => t = s
  | _ => false

/-- `v !== undefined` is false exactly here. -/
def isUndefined : JVal → Bool
  | .undefined => true
  | _ => false

/-- `a || b`: the first operand if truthy, otherwise the second. -/
def jsOr (a b : JVal) : JVal := if truthy a then a else b

/-- `Math.max` on two numbers (`NaN` absorbs). -/
def jsMax : JNum → JNum → JNum
  | .nan, _ => .nan
  | _, .nan => .nan
  | .inf, _ => .inf
  | _, .inf => .inf
  | .ninf, b => b
  | a, .ninf => a
  | .fin a, .fin b => .fin (max a b)

/-- `Math.min` on two numbers (`NaN` absorbs). -/
def jsMin : JNum → JNum → JNum
  | .nan, _ => .nan
  | _, .nan => .nan
  | .ninf, _ => .ninf
  | _, .ninf => .ninf
  | .inf, b => b
  | a, .inf => a
  | .fin a, .fin b => .fin (min a b)

/-- JavaScript `<=` on numbers: false whenever either side is `NaN`. -/
def jsLe : JNum → JNum → Bool
  | .nan, _ => false
  | _, .nan => false
  | .ninf, _ => true
  | _, .inf => true
  | .inf, _ => false
  | _, .ninf => false
  | .fin a, .fin b => decide (a ≤ b)

/-- JavaScript subtraction on numbers (`NaN` propagates). -/
def jsSub : JNum → JNum → JNum
  | .nan, _ => .nan
  | _, .nan => .nan
  | .inf, .inf => .nan
  | .inf, _ => .inf
  | .ninf, .ninf => .nan
  | .ninf, _ => .ninf
  | .fin _, .inf => .ninf
  | .fin _, .ninf => .inf
  | .fin a, .fin b => .fin (a - b)

/-- JavaScript multiplication on numbers (`NaN` propagates, `0 * ±∞ = NaN`). -/
def jsMul : JNum → JNum → JNum
  | .nan, _ => .nan
  | _, .nan => .nan
  | .inf, .inf => .inf
  | .inf, .ninf => .ninf
  | .ninf, .inf => .ninf
  | .ninf, .ninf => .inf
  | .inf, .fin b => if b = 0 then .nan else if 0 < b then .inf else .ninf
  | .fin a, .inf => if a = 0 then .nan else if 0 < a then .inf else .ninf
  | .ninf, .fin b => if b = 0 then .nan else if 0 < b then .ninf else .inf
  | .fin a, .ninf => if a = 0 then .nan else if 0 < a then .ninf else .inf
  | .fin a, .fin b => .fin (a * b)

/-- The ECMAScript WhiteSpace ∪ LineTerminator set used by `trim`,
`parseInt` and `parseFloat`. -/
def jsWhitespace (c : Char) : Bool :=
  c.toNat = 0x09 || c.toNat = 0x0A || c.toNat = 0x0B || c.toNat = 0x0C ||
  c.toNat = 0x0D || c.toNat = 0x20 || c.toNat = 0xA0 || c.toNat = 0x1680 ||
  (0x2000 ≤ c.toNat && c.toNat ≤ 0x200A) ||
  c.toNat = 0x2028 || c.toNat = 0x2029 || c.toNat = 0x202F ||
  c.toNat = 0x205F || c.toNat = 0x3000 || c.toNat = 0xFEFF

/-- The character class stripped by `sanitize`'s regex
`/[\x00-\x08\x0B-\x0C\x0E-\x1F\x7F]/g`. -/
def isStrippedCtrl (c : Char) : Bool :=
  c.toNat ≤ 0x08 || (0x0B ≤ c.toNat && c.toNat ≤ 0x0C) ||
  (0x0E ≤ c.toNat && c.toNat ≤ 0x1F) || c.toNat = 0x7F

/-- `String.prototype.trim`: drop leading and trailing `jsWhitespace`. -/
def trimL (l : List Char) : List Char :=
  ((l.dropWhile jsWhitespace).reverse.dropWhile jsWhitespace).reverse

/-- The `.replace(/[...]/g, '')` step of `sanitize`. -/
def stripL (l : List Char) : List Char :=
  l.filter (fun c => !isStrippedCtrl c)

/-- Value of a digit string (most significant first). -/
def digitsVal (l : List Char) : ℕ :=
  l.foldl (fun acc c => acc * 10 + (c.toNat - '0'.toNat)) 0

/-- `parseInt(s, 10)`: skip whitespace, optional sign, then the longest
decimal-digit prefix; no digits parses to `NaN` (`none`). -/
def parseIntStr (s : String) : Option Int :=
  let l := s.data.dropWhile jsWhitespace
  let sr : Int × List Char :=
    match l with
    | '-' :: t => (-1, t)
    | '+' :: t => (1, t)
    | _ => (1, l)
  let ds := sr.2.takeWhile Char.isDigit
  if ds.isEmpty then none else some (sr.1 * (digitsVal ds : Int))

/-- Exponent part of a `parseFloat` literal (`e`/`E` already consumed);
an exponent with no digits is ignored, as `parseFloat` takes the longest
valid literal prefix. -/
def expVal (t : List Char) : Int :=
  let sr : Int × List Char :=
    match t with
    | '-' :: u => (-1, u)
    | '+' :: u => (1, u)
    | _ => (1, t)
  let ds := sr.2.takeWhile Char.isDigit
  if ds.isEmpty then 0 else sr.1 * (digitsVal ds : Int)

/-- `parseFloat(s)`: whitespace, optional sign, then `Infinity` or a decimal
literal `digits[.digits][(e|E)[sign]digits]`; no digits parses to `NaN`. -/
def parseFloatStr (s : String) : JNum :=
  let l := s.data.dropWhile jsWhitespace
  let sr : ℚ × List Char :=
    match l with
    | '-' :: t => (-1, t)
    | '+' :: t => (1, t)
    | _ => (1, l)
  match sr.2 with
  | 'I' :: 'n' :: 'f' :: 'i' :: 'n' :: 'i' :: 't' :: 'y' :: _ =>
      if sr.1 < 0 then .ninf else .inf
  | _ =>
    let ipart := sr.2.takeWhile Char.isDigit
    let rest1 := sr.2.drop ipart.length
    let fr : List Char × List Char :=
      match rest1 with
      | '.' :: t => (t.takeWhile Char.isDigit, t.drop (t.takeWhile Char.isDigit).length)
      | _ => ([], rest1)
    if ipart.isEmpty && fr.1.isEmpty then .nan
    else
      let mant : ℚ := (digitsVal ipart : ℚ) + (digitsVal fr.1 : ℚ) / (10 : ℚ) ^ fr.1.length
      let e : Int :=
        match fr.2 with
        | 'e' :: t => expVal t
        | 'E' :: t => expVal t
        | _ => 0
      .fin (sr.1 * mant * (10 : ℚ) ^ e)

/-- `parseFloat(v)` for the argument shapes the code passes: a string is
parsed; a number round-trips through its string form (identity, including
`NaN` and `±Infinity`); every other value's string form parses to `NaN`. -/
def parseFloatJS : JVal → JNum
  | .str s => parseFloatStr s
  | .num n => n
  | _ => .nan

/-- Truncation toward zero, as `parseInt` applied to a number's decimal
string form behaves. -/
def ratTruncToInt (q : ℚ) : Int := if 0 ≤ q then ⌊q⌋ else ⌈q⌉

/-- `parseInt(v, 10)` for the argument shapes the code passes (`none` = NaN). -/
def parseIntJS : JVal → Option Int
  | .str s => parseIntStr s
  | .num (.fin q) => some (ratTruncToInt q)
  | _ => none

/-- Embed a `parseInt` result as a JavaScript number. -/
def jnumOfParse : Option Int → JNum
  | some n => .fin (n : ℚ)
  | none => .nan

namespace stringTransformers

/-- `stringTransformers.sanitize`: non-strings map to `""`; a string is
first trimmed, then the control characters are stripped — in that order,
exactly as `str.trim().replace(/[...]/g, '')` does. -/
def sanitize (str : JVal) : String :=
  match str with
  | .str s => ⟨stripL (trimL s.data)⟩
  | _ => ""

/-- `stringTransformers.truncate`: sanitize, then hard-cut to `maxLength`. -/
def truncate (str : JVal) (maxLength : ℕ) : String :=
  let sanitized := sanitize str
  if sanitized.length > maxLength then ⟨sanitized.data.take maxLength⟩ else sanitized

end stringTransformers

namespace numberTransformers

/-- `numberTransformers.toInt`: `parseInt` with a default on `NaN`. -/
def toInt (value : JVal) (defaultValue : Int) : Int :=
  (parseIntJS value).getD defaultValue

/-- `numberTransformers.toFloat`: `parseFloat` with a default on `NaN`
(`isNaN(Infinity)` is false, so infinities pass through). -/
def toFloat (value : JVal) (defaultValue : ℚ) : JNum :=
  match parseFloatJS value with
  | .nan => .fin defaultValue
  | x => x

/-- The `typeof value === 'number' ? value : toFloat(value)` coercion
inside `clamp`. -/
def coerceNum (value : JVal) : JNum :=
  match value with
  | .num n => n
  | v => toFloat v 0

/-- `numberTransformers.clamp`: `Math.min(Math.max(num, min), max)` after
coercing the value to a number.  The bounds are taken as finite numbers,
which covers every call site. -/
def clamp (value : JVal) (lo hi : ℚ) : JNum :=
  jsMin (jsMax (coerceNum value) (.fin lo)) (.fin hi)

end numberTransformers

namespace booleanTransformers

/-- `booleanTransformers.toBool`.  Note that for a number the code tests
`value !== 0`, which is true for `NaN` and the infinities.  `toLowerCase`
is modelled per character (the comparisons are against ASCII literals). -/
def toBool : JVal → Bool
  | .bool b => b
  | .num (.fin q) => if q = 0 then false else true
  | .num _ => true
  | .str s =>
      let lower : String := ⟨s.data.map Char.toLower⟩
      lower = "true" || lower = "1" || lower = "yes"
  | v => truthy v

end booleanTransformers

/-- Stands in for `Date.prototype.toISOString` applied to the timestamp:
the claims never inspect the text of the rendered date, only whether the
result is a string or `null`, so the decimal rendering of the timestamp is
used in place of the ISO-8601 calendar rendering. -/
def isoRepr (t : Int) : String := toString t

/-- `getTime()` of `date instanceof Date ? date : new Date(date)`.
Strings and plain objects are modelled as unparseable dates (the code only
ever reaches this with `Date` values from the database driver); numbers and
booleans follow the `Date(number)` timestamp constructor. -/
def dateValue : JVal → Option Int
  | .date t => t
  | .num (.fin q) => some ⌊q⌋
  | .bool b => some (if b then 1 else 0)
  | _ => none

namespace dateTransformers

/-- `dateTransformers.toISO`: falsy input or an unparseable value maps to
`null`, otherwise the ISO rendering of the date. -/
def toISO (date : JVal) : JVal :=
  if truthy date = false then .null
  else
    match dateValue date with
    | some t => .str (isoRepr t)
    | none => .null

end dateTransformers

/-- Pagination values produced by `normalizePagination`. -/
structure Pagination where
  page : Int
  limit : JNum
  offset : JNum

namespace paginationTransformers

/-- `paginationTransformers.normalizePagination`:
`page = Math.max(1, toInt(page, 1))`,
`limit = clamp(toInt(limit, 20), 1, maxLimit)`,
`offset = (page - 1) * limit`. -/
def normalizePagination (page limit : JVal) (maxLimit : ℚ) : Pagination :=
  let normalizedPage : Int := max 1 (numberTransformers.toInt page 1)
  let normalizedLimit : JNum :=
    numberTransformers.clamp (.num (.fin (numberTransformers.toInt limit 20 : ℚ))) 1 maxLimit
  { page := normalizedPage
    limit := normalizedLimit
    offset := jsMul (.fin ((normalizedPage : ℚ) - 1)) normalizedLimit }

end paginationTransformers

namespace inputTransformers

/-- `['nice','naughty'].includes(v)` under strict equality. -/
def wishCategoryAllowed (v : JVal) : Bool :=
  eqStr v "nice" || eqStr v "naughty"

/-- `inputTransformers.wish`: truncate name/content, keep the category only
when it is one of the allowed strings (silently replacing anything else by
`'nice'`), coerce the anonymous flag to a boolean. -/
def wish (data : JVal) : JVal :=
  .obj
    [("name", .str (stringTransformers.truncate (getField data "name") 100)),
     ("content", .str (stringTransformers.truncate (getField data "content") 1000)),
     ("category",
        if wishCategoryAllowed (getField data "category")
        then getField data "category" else .str "nice"),
     ("is_anonymous", .bool (booleanTransformers.toBool (getField data "is_anonymous")))]

/-- `['low','medium','high'].includes(v)` under strict equality. -/
def todoPriorityAllowed (v : JVal) : Bool :=
  eqStr v "low" || eqStr v "medium" || eqStr v "high"

/-- `inputTransformers.todo`: the title is always set (truncated), while
description / priority / due_date / completed are added only when the
corresponding input property is not `undefined`. -/
def todo (data : JVal) : JVal :=
  let l0 : List (String × JVal) :=
    [("title", .str (stringTransformers.truncate (getField data "title") 255))]
  let l1 :=
    if isUndefined (getField data "description") then l0
    else l0 ++ [("description", .str (stringTransformers.truncate (getField data "description") 1000))]
  let l2 :=
    if isUndefined (getField data "priority") then l1
    else l1 ++ [("priority",
      if todoPriorityAllowed (getField data "priority")
      then getField data "priority" else .str "medium")]
  let l3 :=
    if isUndefined (getField data "due_date") then l2
    else l2 ++ [("due_date", getField data "due_date")]
  let l4 :=
    if isUndefined (getField data "completed") then l3
    else l3 ++ [("completed", .bool (booleanTransformers.toBool (getField data "completed")))]
  .obj l4

end inputTransformers

namespace outputTransformers

/-- `outputTransformers.user`: falsy records map to `null`; otherwise only
id, username, email, avatar (defaulted to `null`) and the ISO created_at are
emitted — the password hash is never copied over. -/
def user (userData : JVal) : JVal :=
  if truthy userData = false then .null
  else
    .obj
      [("id", getField userData "id"),
       ("username", getField userData "username"),
       ("email", getField userData "email"),
       ("avatar", jsOr (getField userData "avatar") .null),
       ("created_at", dateTransformers.toISO (getField userData "created_at"))]

/-- `outputTransformers.wish`. -/
def wish (wishData : JVal) : JVal :=
  if truthy wishData = false then .null
  else
    .obj
      [("id", getField wishData "id"),
       ("name", getField wishData "name"),
       ("content", getField wishData "content"),
       ("category", getField wishData "category"),
       ("is_anonymous", .bool (booleanTransformers.toBool (getField wishData "is_anonymous"))),
       ("created_at", dateTransformers.toISO (getField wishData "created_at"))]

/-- `outputTransformers.todo`. -/
def todo (todoData : JVal) : JVal :=
  if truthy todoData = false then .null
  else
    .obj
      [("id", getField todoData "id"),
       ("title", getField todoData "title"),
       ("description", jsOr (getField todoData "description") .null),
       ("completed", .bool (booleanTransformers.toBool (getField todoData "completed"))),
       ("priority", getField todoData "priority"),
       ("due_date", getField todoData "due_date"),
       ("created_at", dateTransformers.toISO (getField todoData "created_at")),
       ("updated_at", dateTransformers.toISO (getField todoData "updated_at"))]

/-- `outputTransformers.timelineEvent`. -/
def timelineEvent (eventData : JVal) : JVal :=
  if truthy eventData = false then .null
  else
    .obj
      [("id", getField eventData "id"),
       ("title", getField eventData "title"),
       ("event_date", getField eventData "event_date"),
       ("meta", jsOr (getField eventData "meta") .null),
       ("description", jsOr (getField eventData "description") .null),
       ("created_at", dateTransformers.toISO (getField eventData "created_at"))]

/-- `outputTransformers.galleryImage`.  Note the thumbnail: a falsy
`thumbnail_url` falls back to `image_url`, not to `null`. -/
def galleryImage (imageData : JVal) : JVal :=
  if truthy imageData = false then .null
  else
    .obj
      [("id", getField imageData "id"),
       ("image_url", getField imageData "image_url"),
       ("thumbnail_url", jsOr (getField imageData "thumbnail_url") (getField imageData "image_url")),
       ("label", jsOr (getField imageData "label") .null),
       ("description", jsOr (getField imageData "description") .null),
       ("category", getField imageData "category"),
       ("created_at", dateTransformers.toISO (getField imageData "created_at"))]

/-- `outputTransformers.music`. -/
def music (musicData : JVal) : JVal :=
  if truthy musicData = false then .null
  else
    .obj
      [("id", getField musicData "id"),
       ("title", getField musicData "title"),
       ("artist", jsOr (getField musicData "artist") .null),
       ("tag", jsOr (getField musicData "tag") .null),
       ("url", jsOr (getField musicData "url") .null),
       ("duration", jsOr (getField musicData "duration") .null),
       ("play_count", .num (.fin (numberTransformers.toInt (getField musicData "play_count") 0 : ℚ))),
       ("created_at", dateTransformers.toISO (getField musicData "created_at"))]

end outputTransformers

/-! ## Server-side handlers (`server.js`) -/

/-- The decoded JWT payload `{ id, username, email }` attached to a request. -/
structure Identity where
  id : Int
  username : String
  email : String
deriving DecidableEq, Repr

/-- Outcome of the required-auth admission gate: a 401 or 403 rejection
issued before the route handler runs, or the handler running with the
decoded identity attached to the request. -/
inductive AuthOutcome where
  | unauthenticated : AuthOutcome
  | forbidden : AuthOutcome
  | proceed : Identity → AuthOutcome
deriving DecidableEq, Repr

/-- `String.prototype.split(' ')`: the space-separated segments, empty
segments included. -/
def splitSpace : List Char → List (List Char)
  | [] => [[]]
  | c :: t =>
    match splitSpace t with
    | [] => [[]]
    | w :: ws => if c = ' ' then [] :: w :: ws else (c :: w) :: ws

/-- `const token = authHeader && authHeader.split(' ')[1]` followed by the
`!token` falsiness test: `none` exactly when the token is missing or falsy
(absent header, empty header, no second space-separated part, or an empty
second part). -/
def extractBearer (authHeader : Option String) : Option String :=
  match authHeader with
  | none => none
  | some s =>
    if s = "" then none
    else
      match (splitSpace s.data).get? 1 with
      | none => none
      | some t => if t.isEmpty then none else some ⟨t⟩

/-- `authenticateToken` (server.js:130-145): no token → 401; a token the
verifier rejects (bad signature or expired) → 403; a verified token →
attach the decoded identity and continue into the handler.  `verify` is the
external `jwt.verify` collaborator, abstracted as a pure check. -/
def authenticateToken (verify : String → Option Identity) (authHeader : Option String) :
    AuthOutcome :=
  match extractBearer authHeader with
  | none => .unauthenticated
  | some token =>
    match verify token with
    | none => .forbidden
    | some user => .proceed user

/-- Result of `POST /api/wishes`: a 400 rejection with the handler's error
message, or a 201 creation carrying exactly the values inserted. -/
inductive PostWishResult where
  | badRequest : String → PostWishResult
  | created : Option Int → JVal → JVal → JVal → Int → PostWishResult

/-- The destructuring default `category = 'nice'` of the wish handler
(applies only when the property is `undefined`). -/
def effectiveWishCategory (body : JVal) : JVal :=
  if isUndefined (getField body "category") then .str "nice" else getField body "category"

/-- `POST /api/wishes` (server.js:341-380): require truthy name and content,
then reject any category outside `{'nice','naughty'}` with a 400, otherwise
insert the row as given (`is_anonymous` stored as 0/1 by truthiness). -/
def postWish (user : Option Int) (body : JVal) : PostWishResult :=
  let name := getField body "name"
  let content := getField body "content"
  let category := effectiveWishCategory body
  let isAnon :=
    if isUndefined (getField body "is_anonymous") then JVal.bool false
    else getField body "is_anonymous"
  if !truthy name || !truthy content then
    .badRequest "Name and content are required"
  else if !inputTransformers.wishCategoryAllowed category then
    .badRequest "Category must be \"nice\" or \"naughty\""
  else
    .created user name content category (if truthy isAnon then 1 else 0)

/-- A persisted todo row as the PATCH/DELETE handlers see it. -/
structure TodoRow where
  id : Int
  userId : Int
  title : JVal
  description : JVal
  completed : JVal
  priority : JVal
  due_date : JVal

/-- The ownership lookup `SELECT id FROM todos WHERE id = ? AND user_id = ?`. -/
def ownsRow (todoId userId : Int) (r : TodoRow) : Bool :=
  r.id == todoId && r.userId == userId

/-- Whether the PATCH body mentions any updatable field (`!== undefined`). -/
def anyPatchField (body : JVal) : Bool :=
  !isUndefined (getField body "title") || !isUndefined (getField body "description") ||
  !isUndefined (getField body "completed") || !isUndefined (getField body "priority") ||
  !isUndefined (getField body "due_date")

/-- The dynamic `UPDATE todos SET ... WHERE id = ?` applied to one row:
each field is overwritten only when present in the body; `completed` is
stored as 0/1 by truthiness of the raw body value. -/
def applyPatch (body : JVal) (r : TodoRow) : TodoRow :=
  { r with
    title := if isUndefined (getField body "title") then r.title else getField body "title"
    description :=
      if isUndefined (getField body "description") then r.description
      else getField body "description"
    completed :=
      if isUndefined (getField body "completed") then r.completed
      else .num (.fin (if truthy (getField body "completed") then 1 else 0))
    priority := if isUndefined (getField body "priority") then r.priority else getField body "priority"
    due_date :=
      if isUndefined (getField body "due_date") then r.due_date else getField body "due_date" }

/-- Response of `PATCH /api/todos/:id` as far as the claims observe it. -/
inductive PatchResult where
  | notFound : PatchResult
  | badRequest : String → PatchResult
  | ok : PatchResult
deriving DecidableEq, Repr

/-- `PATCH /api/todos/:id` (server.js:456-523): the ownership lookup runs
first and an empty result answers 404 with the store untouched; an invalid
present priority answers 400; an empty update set answers 400; otherwise
the row with the target id is rewritten. -/
def patchTodo (store : List TodoRow) (authId todoId : Int) (body : JVal) :
    PatchResult × List TodoRow :=
  if store.any (ownsRow todoId authId) = false then (.notFound, store)
  else if !isUndefined (getField body "priority") &&
          !inputTransformers.todoPriorityAllowed (getField body "priority") then
    (.badRequest "Priority must be \"low\", \"medium\", or \"high\"", store)
  else if anyPatchField body = false then (.badRequest "No fields to update", store)
  else (.ok, store.map (fun r => if r.id == todoId then applyPatch body r else r))

/-- The page/limit/offset a raw list handler actually feeds into its SQL
`LIMIT ? OFFSET ?`. -/
structure RawListPagination where
  page : JNum
  limit : JNum
  offset : JNum

/-- The pagination computation of `GET /api/wishes` (server.js:298-338):
`const { page = 1, limit = 20 } = req.query` followed by
`offset = (parseInt(page) - 1) * parseInt(limit)` and
`params.push(parseInt(limit), offset)` — no clamping, no positivity fix. -/
def wishesPagination (pageQ limitQ : Option String) : RawListPagination :=
  let page : JVal := match pageQ with | some s => .str s | none => .num (.fin 1)
  let limit : JVal := match limitQ with | some s => .str s | none => .num (.fin 20)
  let p := jnumOfParse (parseIntJS page)
  let l := jnumOfParse (parseIntJS limit)
  { page := p, limit := l, offset := jsMul (jsSub p (.fin 1)) l }

/-- The identical pagination computation of `GET /api/gallery`
(server.js:570-610). -/
def galleryPagination (pageQ limitQ : Option String) : RawListPagination :=
  let page : JVal := match pageQ with | some s => .str s | none => .num (.fin 1)
  let limit : JVal := match limitQ with | some s => .str s | none => .num (.fin 20)
  let p := jnumOfParse (parseIntJS page)
  let l := jnumOfParse (parseIntJS limit)
  { page := p, limit := l, offset := jsMul (jsSub p (.fin 1)) l }

/-! ## Property vocabulary and concrete demonstration inputs -/

/-- A character list with no leading and no trailing JavaScript whitespace. -/
def noEdgeWs (l : List Char) : Bool :=
  (match l.head? with
   | none => true
   | some c => !jsWhitespace c) &&
  (match l.getLast? with
   | none => true
   | some c => !jsWhitespace c)

/-- The user record from the spec's example, password hash included. -/
def demoUser : JVal :=
  .obj [("id", .num (.fin 1)), ("username", .str "a"), ("email", .str "a@b.com"),
        ("password_hash", .str "x"), ("created_at", .date (some 0))]

/-- A wish body with an out-of-set category. -/
def demoWishBody : JVal :=
  .obj [("name", .str "a"), ("content", .str "b"), ("category", .str "invalid")]

/-- A persisted todo owned by user 7. -/
def demoTodoRow : TodoRow :=
  ⟨1, 7, .str "Buy gifts", .null, .num (.fin 0), .str "medium", .null⟩

/-- A gallery record with no `thumbnail_url` (and no label/description). -/
def demoImage : JVal :=
  .obj [("id", .num (.fin 1)), ("image_url", .str "a.jpg")]

/-- A todo record with no description and no due date. -/
def demoTodoRec : JVal :=
  .obj [("id", .num (.fin 2)), ("title", .str "t")]

/-- A timeline event record with no meta and no description. -/
def demoEventRec : JVal :=
  .obj [("id", .num (.fin 3)), ("title", .str "e")]

/-- A music record with no artist, tag, url or duration. -/
def demoMusicRec : JVal :=
  .obj [("id", .num (.fin 4)), ("title", .str "m")]

/-- A concrete verifier accepting exactly the token `"tok"`. -/
def demoVerify : String → Option Identity :=
  fun t => if t = "tok" then some ⟨1, "elf", "elf@np.test"⟩ else none

/-! ## Helper lemmas about trimming and stripping -/

theorem dropWhile_head_false {α : Type} (p : α → Bool) (l : List α) (c : α)
    (h : (l.dropWhile p).head? = some c) : p c = false := by
  induction l with
  | nil => simp [List.dropWhile] at h
  | cons a t ih =>
    rw [List.dropWhile_cons] at h
    by_cases hpa : p a = true
    · rw [if_pos hpa] at h; exact ih h
    · rw [if_neg hpa] at h
      simp only [List.head?_cons, Option.some.injEq] at h
      subst h
      exact Bool.eq_false_iff.mpr hpa

theorem dropWhile_eq_self_of_head {α : Type} (p : α → Bool) (l : List α)
    (h : ∀ c, l.head? = some c → p c = false) : l.dropWhile p = l := by
  cases l with
  | nil => rfl
  | cons a t =>
    have ha := h a rfl
    rw [List.dropWhile_cons, if_neg (by simp [ha])]

theorem getLast?_dropWhile {α : Type} (p : α → Bool) (l : List α)
    (h : l.dropWhile p ≠ []) : (l.dropWhile p).getLast? = l.getLast? := by
  obtain ⟨t, ht⟩ := List.dropWhile_suffix p (l := l)
  conv_rhs => rw [← ht]
  rw [List.getLast?_append_of_ne_nil _ h]

theorem trimL_head (l : List Char) (c : Char) (h : (trimL l).head? = some c) :
    jsWhitespace c = false := by
  unfold trimL at h
  rw [List.head?_reverse] at h
  have hne : (l.dropWhile jsWhitespace).reverse.dropWhile jsWhitespace ≠ [] := by
    intro hnil
    rw [hnil] at h
    simp at h
  rw [getLast?_dropWhile _ _ hne, List.getLast?_reverse] at h
  exact dropWhile_head_false _ _ _ h

theorem trimL_last (l : List Char) (c : Char) (h : (trimL l).getLast? = some c) :
    jsWhitespace c = false := by
  unfold trimL at h
  rw [List.getLast?_reverse] at h
  exact dropWhile_head_false _ _ _ h

theorem trimL_eq_self (l : List Char)
    (hh : ∀ c, l.head? = some c → jsWhitespace c = false)
    (hl : ∀ c, l.getLast? = some c → jsWhitespace c = false) : trimL l = l := by
  unfold trimL
  rw [dropWhile_eq_self_of_head _ _ hh]
  rw [dropWhile_eq_self_of_head _ _ (by
    intro c hc
    rw [List.head?_reverse] at hc
    exact hl c hc)]
  exact List.reverse_reverse l

theorem mem_trimL {c : Char} {l : List Char} (h : c ∈ trimL l) : c ∈ l := by
  unfold trimL at h
  rw [List.mem_reverse] at h
  have h2 := (List.dropWhile_suffix jsWhitespace).subset h
  rw [List.mem_reverse] at h2
  exact (List.dropWhile_suffix jsWhitespace).subset h2

theorem stripL_ctrl_free (l : List Char) : ∀ c ∈ stripL l, isStrippedCtrl c = false := by
  intro c hc
  rw [stripL, List.mem_filter] at hc
  simpa using hc.2

theorem stripL_eq_self (l : List Char) (h : ∀ c ∈ l, isStrippedCtrl c = false) :
    stripL l = l :=
  List.filter_eq_self.mpr (by intro a ha; simpa using h a ha)

theorem noEdgeWs_intro (l : List Char)
    (hh : ∀ c, l.head? = some c → jsWhitespace c = false)
    (hl : ∀ c, l.getLast? = some c → jsWhitespace c = false) : noEdgeWs l = true := by
  unfold noEdgeWs
  rcases h1 : l.head? with _ | c <;> rcases h2 : l.getLast? with _ | d <;>
    simp [hh, h1, hl, h2]

theorem getField_obj (fs : List (String × JVal)) (k : String) :
    getField (.obj fs) k = lookupF fs k := rfl

theorem lookupF_cons (k' : String) (v : JVal) (t : List (String × JVal)) (k : String) :
    lookupF ((k', v) :: t) k = if k' = k then v else lookupF t k := rfl

theorem lookupF_nil (k : String) : lookupF [] k = .undefined := rfl

theorem toFloat_ne_nan (v : JVal) (d : ℚ) : numberTransformers.toFloat v d ≠ .nan := by
  unfold numberTransformers.toFloat
  cases parseFloatJS v <;> simp

theorem coerceNum_eq_nan_iff (v : JVal) :
    numberTransformers.coerceNum v = .nan ↔ v = .num .nan := by
  unfold numberTransformers.coerceNum
  cases v <;> simp [toFloat_ne_nan]

theorem clamp_fin_cases (n : JNum) (lo hi : ℚ) (h : lo ≤ hi) (hn : n ≠ .nan) :
    ∃ q, jsMin (jsMax n (.fin lo)) (.fin hi) = .fin q ∧ lo ≤ q ∧ q ≤ hi := by
  cases n with
  | nan => exact absurd rfl hn
  | inf => exact ⟨hi, rfl, h, le_refl hi⟩
  | ninf => exact ⟨lo, by simp [jsMax, jsMin, min_eq_left h], le_refl lo, h⟩
  | fin x => exact ⟨min (max x lo) hi, rfl, le_min (le_max_right x lo) h, min_le_right _ _⟩

theorem clamp_step_idem (n : JNum) (lo hi : ℚ) (h : lo ≤ hi) :
    jsMin (jsMax (jsMin (jsMax n (.fin lo)) (.fin hi)) (.fin lo)) (.fin hi)
      = jsMin (jsMax n (.fin lo)) (.fin hi) := by
  cases n with
  | nan => rfl
  | inf => simp [jsMax, jsMin, max_eq_left h]
  | ninf =>
    simp only [jsMax, jsMin]
    rw [max_eq_right (min_le_left lo hi)]
  | fin x =>
    simp only [jsMax, jsMin]
    have h1 : lo ≤ min (max x lo) hi := le_min (le_max_right x lo) h
    rw [max_eq_left h1, min_eq_left (min_le_right _ _)]

/-! ## Claim theorems -/

/-- **C1, counterexample.** Posting a wish with `category:"invalid"` (name and
content present) does not succeed with a silently defaulted category: the
`POST /api/wishes` handler answers 400 with a category validation error. -/
theorem wish_invalid_category_rejected_cex :
    postWish none demoWishBody = .badRequest "Category must be \"nice\" or \"naughty\"" := rfl

/-- **C1, amended.** The wish input shaper does map any out-of-set category to
`"nice"`; the `POST /api/wishes` handler, however, does not call it: for any
body with truthy name and content whose (defaulted) category is outside
`{nice, naughty}` it rejects with a 400 error instead of persisting. -/
theorem wish_category_shaper_defaults_handler_rejects :
    (∀ data : JVal,
      inputTransformers.wishCategoryAllowed (getField data "category") = false →
      getField (inputTransformers.wish data) "category" = .str "nice")
    ∧ (∀ user : Option Int, ∀ body : JVal,
        truthy (getField body "name") = true →
        truthy (getField body "content") = true →
        inputTransformers.wishCategoryAllowed (effectiveWishCategory body) = false →
        postWish user body = .badRequest "Category must be \"nice\" or \"naughty\"") := by
  constructor
  · intro data h
    unfold inputTransformers.wish
    simp only [h]
    simp [getField, lookupF]
  · intro user body hn hc hcat
    unfold postWish
    simp [hn, hc, hcat]

/-- **C1, witness.** The two parts of the amended claim at the concrete body
`{name:"a", content:"b", category:"invalid"}`. -/
theorem wish_category_shaper_defaults_handler_rejects_witness :
    (inputTransformers.wishCategoryAllowed
        (getField (.obj [("category", JVal.str "invalid")]) "category") = false
      ∧ getField (inputTransformers.wish (.obj [("category", JVal.str "invalid")])) "category"
          = .str "nice")
    ∧ (truthy (getField demoWishBody "name") = true
      ∧ truthy (getField demoWishBody "content") = true
      ∧ inputTransformers.wishCategoryAllowed (effectiveWishCategory demoWishBody) = false
      ∧ postWish (some 3) demoWishBody = .badRequest "Category must be \"nice\" or \"naughty\"") :=
  ⟨⟨rfl, wish_category_shaper_defaults_handler_rejects.1 _ rfl⟩,
   ⟨rfl, rfl, rfl,
    wish_category_shaper_defaults_handler_rejects.2 (some 3) demoWishBody rfl rfl rfl⟩⟩

/-- **C2.** A todo PATCH whose authenticated user does not own a stored row
with the target id (no such id, or a different owner) answers not-found and
leaves the store untouched — the ownership lookup runs before any mutation. -/
theorem todo_patch_foreign_user_not_found (store : List TodoRow) (authId todoId : Int)
    (body : JVal) (h : ∀ r ∈ store, ¬(r.id = todoId ∧ r.userId = authId)) :
    patchTodo store authId todoId body = (.notFound, store) := by
  have hany : store.any (ownsRow todoId authId) = false := by
    rw [List.any_eq_false]
    intro r hr
    simp only [ownsRow, Bool.and_eq_true, beq_iff_eq]
    exact fun hc => h r hr ⟨hc.1, hc.2⟩
  unfold patchTodo
  rw [hany]
  simp

/-- **C2, witness.** User 8 patching the todo with id 1 owned by user 7:
not-found, store unchanged. -/
theorem todo_patch_foreign_user_not_found_witness :
    (∀ r ∈ [demoTodoRow], ¬(r.id = 1 ∧ r.userId = 8))
    ∧ patchTodo [demoTodoRow] 8 1 (.obj [("title", .str "stolen")])
        = (.notFound, [demoTodoRow]) := by
  have hyp : ∀ r ∈ [demoTodoRow], ¬(r.id = 1 ∧ r.userId = 8) := by
    intro r hr
    simp only [List.mem_singleton] at hr
    subst hr
    simp [demoTodoRow]
  exact ⟨hyp, todo_patch_foreign_user_not_found _ _ _ _ hyp⟩

/-- **C3.** The user output shaper never emits a `password_hash` key — for
every input record, and in particular for the spec's example record. -/
theorem user_output_never_exposes_password_hash :
    (∀ u : JVal, hasKey (outputTransformers.user u) "password_hash" = false)
    ∧ hasKey (outputTransformers.user demoUser) "password_hash" = false := by
  have h : ∀ u : JVal, hasKey (outputTransformers.user u) "password_hash" = false := by
    intro u
    unfold outputTransformers.user
    by_cases h : truthy u = false
    · rw [if_pos h]; rfl
    · rw [if_neg h]; rfl
  exact ⟨h, h demoUser⟩

/-- **C4, counterexample.** `sanitize` trims before stripping, so control
characters at the ends shield inner whitespace: on `"\x00 a \x00"` the result
`" a "` has leading/trailing whitespace, and a second application gives
`"a"`, refuting idempotence. -/
theorem sanitize_not_trimmed_cex :
    stringTransformers.sanitize (.str "\u0000 a \u0000") = " a "
    ∧ noEdgeWs (stringTransformers.sanitize (.str "\u0000 a \u0000")).data = false
    ∧ stringTransformers.sanitize (.str (stringTransformers.sanitize (.str "\u0000 a \u0000")))
        ≠ stringTransformers.sanitize (.str "\u0000 a \u0000") := by
  refine ⟨by decide, by decide, by decide⟩

/-- **C4, amended.** The result of `sanitize` never contains a character of
the stripped control ranges; and on inputs free of those control characters
the result is additionally trimmed and `sanitize` is idempotent.  (With
control characters at the ends of the input, trimming-before-stripping can
leave edge whitespace, as the counterexample shows.) -/
theorem sanitize_ctrl_free_and_conditionally_idem (s : String) :
    (stringTransformers.sanitize (.str s)).data.all (fun c => !isStrippedCtrl c) = true
    ∧ (s.data.all (fun c => !isStrippedCtrl c) = true →
        noEdgeWs (stringTransformers.sanitize (.str s)).data = true
        ∧ stringTransformers.sanitize (.str (stringTransformers.sanitize (.str s)))
            = stringTransformers.sanitize (.str s)) := by
  constructor
  · rw [List.all_eq_true]
    intro c hc
    have := stripL_ctrl_free (trimL s.data) c hc
    simp [this]
  · intro hs
    rw [List.all_eq_true] at hs
    have hsf : ∀ c ∈ s.data, isStrippedCtrl c = false := by
      intro c hc
      have := hs c hc
      simpa using this
    have htf : ∀ c ∈ trimL s.data, isStrippedCtrl c = false :=
      fun c hc => hsf c (mem_trimL hc)
    have hstrip : stripL (trimL s.data) = trimL s.data := stripL_eq_self _ htf
    have hdata : (stringTransformers.sanitize (.str s)).data = trimL s.data := by
      show (stripL (trimL s.data)) = trimL s.data
      exact hstrip
    constructor
    · rw [hdata]
      exact noEdgeWs_intro _ (trimL_head s.data) (trimL_last s.data)
    · show (⟨stripL (trimL (stringTransformers.sanitize (.str s)).data)⟩ : String)
          = stringTransformers.sanitize (.str s)
      rw [hdata]
      rw [trimL_eq_self _ (trimL_head s.data) (trimL_last s.data)]
      rw [hstrip]
      show (⟨trimL s.data⟩ : String) = ⟨stripL (trimL s.data)⟩
      rw [hstrip]

/-- **C4, witness.** The conditional part at the control-free input
`"  hi  "`. -/
theorem sanitize_ctrl_free_and_conditionally_idem_witness :
    "  hi  ".data.all (fun c => !isStrippedCtrl c) = true
    ∧ noEdgeWs (stringTransformers.sanitize (.str "  hi  ")).data = true
    ∧ stringTransformers.sanitize (.str (stringTransformers.sanitize (.str "  hi  ")))
        = stringTransformers.sanitize (.str "  hi  ") := by
  have h := sanitize_ctrl_free_and_conditionally_idem "  hi  "
  exact ⟨by decide, (h.2 (by decide)).1, (h.2 (by decide)).2⟩

/-- **C5, counterexample.** The wishes and gallery list handlers feed raw
`parseInt` results into `LIMIT ? OFFSET ?`: `?limit=500` uses limit 500
(past the 100 ceiling) and `?page=0` uses page 0 (not positive). -/
theorem list_handlers_unclamped_pagination_cex :
    (wishesPagination none (some "500")).limit = .fin 500
    ∧ jsLe (wishesPagination none (some "500")).limit (.fin 100) = false
    ∧ (galleryPagination (some "0") (some "500")).limit = .fin 500
    ∧ (galleryPagination (some "0") (some "500")).page = .fin 0 := by
  refine ⟨by decide, by decide, by decide, by decide⟩

/-- **C5, amended.** `normalizePagination` does establish the invariant —
page ≥ 1, 1 ≤ limit ≤ maxLimit, offset = (page−1)·limit — for any query
strings; but the `GET /api/wishes` and `GET /api/gallery` handlers bypass
it, so the values they actually use are unbounded (counterexample above). -/
theorem normalize_pagination_bounds (page limit : JVal) (maxLimit : ℚ)
    (h : 1 ≤ maxLimit) :
    1 ≤ (paginationTransformers.normalizePagination page limit maxLimit).page
    ∧ ∃ l : ℚ,
        (paginationTransformers.normalizePagination page limit maxLimit).limit = .fin l
        ∧ 1 ≤ l ∧ l ≤ maxLimit
        ∧ (paginationTransformers.normalizePagination page limit maxLimit).offset
            = .fin ((((paginationTransformers.normalizePagination page limit maxLimit).page : ℚ)
                - 1) * l) := by
  refine ⟨le_max_left 1 _, min (max (numberTransformers.toInt limit 20 : ℚ) 1) maxLimit,
    ?_, le_min (le_max_right _ _) h, min_le_right _ _, ?_⟩
  · simp [paginationTransformers.normalizePagination, numberTransformers.clamp,
      numberTransformers.coerceNum, jsMax, jsMin]
  · simp [paginationTransformers.normalizePagination, numberTransformers.clamp,
      numberTransformers.coerceNum, jsMax, jsMin, jsMul]

/-- **C5, witness.** The invariant at `page="2"`, `limit="10"`, ceiling 100. -/
theorem normalize_pagination_bounds_witness :
    (1 : ℚ) ≤ 100
    ∧ (1 ≤ (paginationTransformers.normalizePagination (.str "2") (.str "10") 100).page
      ∧ ∃ l : ℚ,
          (paginationTransformers.normalizePagination (.str "2") (.str "10") 100).limit = .fin l
          ∧ 1 ≤ l ∧ l ≤ 100
          ∧ (paginationTransformers.normalizePagination (.str "2") (.str "10") 100).offset
              = .fin ((((paginationTransformers.normalizePagination (.str "2") (.str "10") 100).page : ℚ)
                  - 1) * l)) :=
  ⟨by norm_num, normalize_pagination_bounds (.str "2") (.str "10") 100 (by norm_num)⟩

/-- **C6.** The required admission gate: a missing/falsy bearer token answers
401 before the handler runs; a present token the verifier rejects answers
403; a verified token attaches the decoded identity and lets the handler
run. -/
theorem authenticate_token_gate (verify : String → Option Identity) (h : Option String) :
    (extractBearer h = none → authenticateToken verify h = .unauthenticated)
    ∧ (∀ t, extractBearer h = some t → verify t = none →
        authenticateToken verify h = .forbidden)
    ∧ (∀ t u, extractBearer h = some t → verify t = some u →
        authenticateToken verify h = .proceed u) := by
  refine ⟨fun hn => ?_, fun t ht hv => ?_, fun t u ht hv => ?_⟩ <;>
    unfold authenticateToken
  · rw [hn]
  · rw [ht]; simp [hv]
  · rw [ht]; simp [hv]

/-- **C6, witness.** The three gate behaviours at concrete headers with a
concrete verifier. -/
theorem authenticate_token_gate_witness :
    authenticateToken demoVerify none = .unauthenticated
    ∧ authenticateToken demoVerify (some "Bearer bad") = .forbidden
    ∧ authenticateToken demoVerify (some "Bearer tok") = .proceed ⟨1, "elf", "elf@np.test"⟩ :=
  ⟨(authenticate_token_gate demoVerify none).1 rfl,
   (authenticate_token_gate demoVerify (some "Bearer bad")).2.1 "bad" rfl rfl,
   (authenticate_token_gate demoVerify (some "Bearer tok")).2.2 "tok"
     ⟨1, "elf", "elf@np.test"⟩ rfl rfl⟩

/-- **C7, counterexample.** The todo input shaper always emits `title`, even
when the input body has no such key: `todo({})` is `{title: ""}`. -/
theorem todo_shaper_always_emits_title_cex :
    hasKey (inputTransformers.todo (.obj [])) "title" = true
    ∧ hasKey (.obj ([] : List (String × JVal))) "title" = false := ⟨rfl, rfl⟩

/-- **C7, amended.** The todo input shaper emits `description`, `priority`,
`due_date` and `completed` exactly when the input body carries them (is not
`undefined` there); `title`, however, is always emitted, defaulting to the
empty string. -/
theorem todo_shaper_sparse_fields (data : JVal) :
    hasKey (inputTransformers.todo data) "title" = true
    ∧ hasKey (inputTransformers.todo data) "description"
        = !isUndefined (getField data "description")
    ∧ hasKey (inputTransformers.todo data) "priority" = !isUndefined (getField data "priority")
    ∧ hasKey (inputTransformers.todo data) "due_date" = !isUndefined (getField data "due_date")
    ∧ hasKey (inputTransformers.todo data) "completed"
        = !isUndefined (getField data "completed") := by
  unfold inputTransformers.todo
  cases h1 : isUndefined (getField data "description") <;>
  cases h2 : isUndefined (getField data "priority") <;>
  cases h3 : isUndefined (getField data "due_date") <;>
  cases h4 : isUndefined (getField data "completed") <;>
    simp [h1, h2, h3, h4, hasKey, List.any_append]

/-- **C8, counterexample.** Two optional fields escape the null default: a
gallery record with no `thumbnail_url` is shaped to `thumbnail_url =
image_url` (not `null`), and a todo record with no `due_date` is shaped to
`due_date = undefined` (the raw passthrough), not `null`. -/
theorem output_optional_not_null_cex :
    getField (outputTransformers.galleryImage demoImage) "thumbnail_url" = .str "a.jpg"
    ∧ getField (outputTransformers.galleryImage demoImage) "thumbnail_url" ≠ JVal.null
    ∧ getField (outputTransformers.todo demoTodoRec) "due_date" = .undefined
    ∧ getField (outputTransformers.todo demoTodoRec) "due_date" ≠ JVal.null := by
  refine ⟨rfl, ?_, rfl, ?_⟩
  · show JVal.str "a.jpg" ≠ JVal.null
    exact fun hc => JVal.noConfusion hc
  · show JVal.undefined ≠ JVal.null
    exact fun hc => JVal.noConfusion hc

/-- **C8, amended.** On truthy records, every optional field of the output
shapers maps a missing or falsy stored value to `null` — user `avatar`, todo
`description`, timeline `meta` and `description`, gallery `label` and
`description`, music `artist`, `tag`, `url` and `duration` — with exactly two
exceptions: the gallery `thumbnail_url` falls back to the record's
`image_url`, and the todo `due_date` is passed through unchanged (so a
missing due date stays `undefined`). -/
theorem output_optional_fields_default (userRec todoRec eventRec img musicRec : JVal)
    (hu : truthy userRec = true) (ht : truthy todoRec = true)
    (he : truthy eventRec = true) (hi : truthy img = true)
    (hm : truthy musicRec = true) :
    (truthy (getField userRec "avatar") = false →
      getField (outputTransformers.user userRec) "avatar" = .null)
    ∧ (truthy (getField todoRec "description") = false →
      getField (outputTransformers.todo todoRec) "description" = .null)
    ∧ (truthy (getField eventRec "meta") = false →
      getField (outputTransformers.timelineEvent eventRec) "meta" = .null)
    ∧ (truthy (getField eventRec "description") = false →
      getField (outputTransformers.timelineEvent eventRec) "description" = .null)
    ∧ (truthy (getField img "label") = false →
      getField (outputTransformers.galleryImage img) "label" = .null)
    ∧ (truthy (getField img "description") = false →
      getField (outputTransformers.galleryImage img) "description" = .null)
    ∧ (truthy (getField musicRec "artist") = false →
      getField (outputTransformers.music musicRec) "artist" = .null)
    ∧ (truthy (getField musicRec "tag") = false →
      getField (outputTransformers.music musicRec) "tag" = .null)
    ∧ (truthy (getField musicRec "url") = false →
      getField (outputTransformers.music musicRec) "url" = .null)
    ∧ (truthy (getField musicRec "duration") = false →
      getField (outputTransformers.music musicRec) "duration" = .null)
    ∧ (truthy (getField img "thumbnail_url") = false →
      getField (outputTransformers.galleryImage img) "thumbnail_url"
        = getField img "image_url")
    ∧ getField (outputTransformers.todo todoRec) "due_date"
        = getField todoRec "due_date" := by
  refine ⟨fun h => ?_, fun h => ?_, fun h => ?_, fun h => ?_, fun h => ?_, fun h => ?_,
    fun h => ?_, fun h => ?_, fun h => ?_, fun h => ?_, fun h => ?_, ?_⟩
  · simp [outputTransformers.user, hu, getField_obj, lookupF_cons, lookupF_nil, jsOr, h]
  · simp [outputTransformers.todo, ht, getField_obj, lookupF_cons, lookupF_nil, jsOr, h]
  · simp [outputTransformers.timelineEvent, he, getField_obj, lookupF_cons, lookupF_nil, jsOr, h]
  · simp [outputTransformers.timelineEvent, he, getField_obj, lookupF_cons, lookupF_nil, jsOr, h]
  · simp [outputTransformers.galleryImage, hi, getField_obj, lookupF_cons, lookupF_nil, jsOr, h]
  · simp [outputTransformers.galleryImage, hi, getField_obj, lookupF_cons, lookupF_nil, jsOr, h]
  · simp [outputTransformers.music, hm, getField_obj, lookupF_cons, lookupF_nil, jsOr, h]
  · simp [outputTransformers.music, hm, getField_obj, lookupF_cons, lookupF_nil, jsOr, h]
  · simp [outputTransformers.music, hm, getField_obj, lookupF_cons, lookupF_nil, jsOr, h]
  · simp [outputTransformers.music, hm, getField_obj, lookupF_cons, lookupF_nil, jsOr, h]
  · simp [outputTransformers.galleryImage, hi, getField_obj, lookupF_cons, lookupF_nil, jsOr, h]
  · simp [outputTransformers.todo, ht, getField_obj, lookupF_cons, lookupF_nil]

/-- **C8, witness.** The amended claim at concrete records, each lacking its
optional fields: the defaulting clauses for one field of every shaper, the
thumbnail fallback, and the due-date passthrough. -/
theorem output_optional_fields_default_witness :
    (truthy demoUser = true ∧ truthy demoTodoRec = true ∧ truthy demoEventRec = true
      ∧ truthy demoImage = true ∧ truthy demoMusicRec = true)
    ∧ (truthy (getField demoUser "avatar") = false
      ∧ getField (outputTransformers.user demoUser) "avatar" = .null)
    ∧ (truthy (getField demoTodoRec "description") = false
      ∧ getField (outputTransformers.todo demoTodoRec) "description" = .null)
    ∧ (truthy (getField demoEventRec "meta") = false
      ∧ getField (outputTransformers.timelineEvent demoEventRec) "meta" = .null)
    ∧ (truthy (getField demoMusicRec "artist") = false
      ∧ getField (outputTransformers.music demoMusicRec) "artist" = .null)
    ∧ (truthy (getField demoImage "thumbnail_url") = false
      ∧ getField (outputTransformers.galleryImage demoImage) "thumbnail_url"
          = getField demoImage "image_url")
    ∧ getField (outputTransformers.todo demoTodoRec) "due_date"
        = getField demoTodoRec "due_date" := by
  have h := output_optional_fields_default demoUser demoTodoRec demoEventRec demoImage
    demoMusicRec rfl rfl rfl rfl rfl
  exact ⟨⟨rfl, rfl, rfl, rfl, rfl⟩, ⟨rfl, h.1 rfl⟩, ⟨rfl, h.2.1 rfl⟩, ⟨rfl, h.2.2.1 rfl⟩,
    ⟨rfl, h.2.2.2.2.2.2.1 rfl⟩, ⟨rfl, h.2.2.2.2.2.2.2.2.2.2.1 rfl⟩,
    h.2.2.2.2.2.2.2.2.2.2.2⟩

/-- **C9, counterexample.** `clamp(NaN, 0, 1)` is `NaN` (the number `NaN`
takes the `typeof value === 'number'` path and absorbs through
`Math.max`/`Math.min`), which does not lie within `[0, 1]`. -/
theorem clamp_nan_cex :
    numberTransformers.clamp (.num .nan) 0 1 = .nan
    ∧ jsLe (.fin 0) (numberTransformers.clamp (.num .nan) 0 1) = false
    ∧ jsLe (numberTransformers.clamp (.num .nan) 0 1) (.fin 1) = false :=
  ⟨rfl, rfl, rfl⟩

/-- **C9, amended.** For `min ≤ max`, `clamp(v, min, max)` lies within
`[min, max]` for every `v` other than the number `NaN` (non-numeric values
are coerced through `toFloat`, which never yields `NaN`); and `clamp` is
idempotent for every `v`, `NaN` included. -/
theorem clamp_range_and_idempotent (v : JVal) (lo hi : ℚ) (h : lo ≤ hi) :
    (v ≠ .num .nan →
      ∃ q, numberTransformers.clamp v lo hi = .fin q ∧ lo ≤ q ∧ q ≤ hi)
    ∧ numberTransformers.clamp (.num (numberTransformers.clamp v lo hi)) lo hi
        = numberTransformers.clamp v lo hi := by
  constructor
  · intro hv
    have hn : numberTransformers.coerceNum v ≠ .nan :=
      fun hc => hv ((coerceNum_eq_nan_iff v).mp hc)
    exact clamp_fin_cases _ lo hi h hn
  · exact clamp_step_idem (numberTransformers.coerceNum v) lo hi h

/-- **C9, witness.** The amended claim at `v = "150"`, bounds `[0, 100]`. -/
theorem clamp_range_and_idempotent_witness :
    (0 : ℚ) ≤ 100
    ∧ (JVal.str "150" ≠ .num .nan
      ∧ ∃ q, numberTransformers.clamp (.str "150") 0 100 = .fin q ∧ 0 ≤ q ∧ q ≤ 100)
    ∧ numberTransformers.clamp (.num (numberTransformers.clamp (.str "150") 0 100)) 0 100
        = numberTransformers.clamp (.str "150") 0 100 := by
  have h := clamp_range_and_idempotent (.str "150") 0 100 (by norm_num)
  exact ⟨by norm_num, ⟨fun hc => JVal.noConfusion hc, h.1 (fun hc => JVal.noConfusion hc)⟩, h.2⟩

/-- **C10.** Every per-entity output shaper maps a falsy record (null,
undefined, 0, "", false, NaN) to `null` — shaping a missing record is total
and yields the Option-like `null`. -/
theorem output_shapers_map_falsy_to_null (v : JVal) (h : truthy v = false) :
    outputTransformers.user v = .null ∧ outputTransformers.wish v = .null
    ∧ outputTransformers.todo v = .null ∧ outputTransformers.timelineEvent v = .null
    ∧ outputTransformers.galleryImage v = .null ∧ outputTransformers.music v = .null := by
  unfold outputTransformers.user outputTransformers.wish outputTransformers.todo
    outputTransformers.timelineEvent outputTransformers.galleryImage outputTransformers.music
  simp [h]

/-- **C10, witness.** The six shapers at the falsy record `null`. -/
theorem output_shapers_map_falsy_to_null_witness :
    truthy JVal.null = false
    ∧ (outputTransformers.user JVal.null = .null ∧ outputTransformers.wish JVal.null = .null
      ∧ outputTransformers.todo JVal.null = .null
      ∧ outputTransformers.timelineEvent JVal.null = .null
      ∧ outputTransformers.galleryImage JVal.null = .null
      ∧ outputTransformers.music JVal.null = .null) :=
  ⟨rfl, output_shapers_map_falsy_to_null JVal.null rfl⟩
